import Mathlib

/-!
Shallow embedding of `samples/mcp-server/mcp_server_vscode.py`, the Flask MCP
server of the thunder repository.  JSON values are modelled by an inductive
type; Python dictionaries backing the session store are association lists; a
Python exception escaping a handler is modelled by `Except.error` at the
outermost level; Flask request/response objects are records holding exactly
the fields the handlers consult.
-/

/-- JSON values as the handlers see them.  Numbers are modelled by `Int`:
every number any claim exercises is an integer, and no handler performs
non-integral arithmetic. -/
inductive Json : Type where
  | null : Json
  | bool : Bool → Json
  | num : Int → Json
  | str : String → Json
  | arr : List Json → Json
  | obj : List (String × Json) → Json

/-- Python `x == "lit"` for a string literal: equal strings compare equal,
any non-string value compares unequal (never an error). -/
def jsonEqStr : Json → String → Bool
  | Json.str s, t => s == t
  | _, _ => false

/-- Python `x is None`. -/
def isNone : Json → Bool
  | Json.null => true
  | _ => false

/-- Python truthiness of a JSON value (`bool(v)`): `None`, `False`, `0`,
empty string, empty list and empty dict are falsy. -/
def truthy : Json → Bool
  | Json.null => false
  | Json.bool b => b
  | Json.num n => n != 0
  | Json.str s => s != ""
  | Json.arr xs => !xs.isEmpty
  | Json.obj fs => !fs.isEmpty

/-- Python `v.get(key, dflt)`.  On a non-dict value `.get` raises
`AttributeError` (the Python message quotes the receiver type; the model uses
a fixed text). -/
def pyGetD : Json → String → Json → Except String Json
  | Json.obj fs, k, d => Except.ok ((fs.lookup k).getD d)
  | _, _, _ => Except.error "AttributeError: value has no attribute get"

/-- Python `v.get(key)` (default `None`). -/
def pyGet (v : Json) (k : String) : Except String Json :=
  pyGetD v k Json.null

/-- Python `str()` of the scalar JSON values that the handlers interpolate
into f-strings.  Containers are summarised: no modelled message renders one
in any claim, and Python's own container rendering (element reprs) is
library behaviour outside the modelled domain. -/
def pyStr : Json → String
  | Json.null => "None"
  | Json.bool b => cond b "True" "False"
  | Json.num n => toString n
  | Json.str s => s
  | Json.arr xs => "[" ++ toString xs.length ++ " items]"
  | Json.obj fs => "[" ++ toString fs.length ++ " fields]"

/-- Python numeric coercion for arithmetic: booleans are integers. -/
def asInt : Json → Option Int
  | Json.num n => some n
  | Json.bool b => some (cond b 1 0)
  | _ => none

/-- Python `x + y` on the modelled value domain: numeric addition, string
and list concatenation; any other operand pair raises `TypeError`. -/
def pyAdd (x y : Json) : Except String Json :=
  match asInt x, asInt y with
  | some a, some b => Except.ok (Json.num (a + b))
  | _, _ =>
    match x, y with
    | Json.str a, Json.str b => Except.ok (Json.str (a ++ b))
    | Json.arr a, Json.arr b => Except.ok (Json.arr (a ++ b))
    | _, _ => Except.error "TypeError: unsupported operand types for +"

/-- Python sequence repetition `s * n` for strings (a non-positive count
yields the empty string). -/
def pyRepeatStr (s : String) (n : Int) : String :=
  String.join (List.replicate n.toNat s)

/-- Python sequence repetition `xs * n` for lists (a non-positive count
yields the empty list). -/
def pyRepeatList (xs : List Json) (n : Int) : List Json :=
  (List.replicate n.toNat xs).flatten

/-- Python `x * y` on the modelled value domain: numeric multiplication,
and sequence repetition when one operand is a string or list and the other
an integer (either order); any other operand pair raises `TypeError`. -/
def pyMul (x y : Json) : Except String Json :=
  match asInt x, asInt y with
  | some a, some b => Except.ok (Json.num (a * b))
  | some a, none =>
    match y with
    | Json.str s => Except.ok (Json.str (pyRepeatStr s a))
    | Json.arr xs => Except.ok (Json.arr (pyRepeatList xs a))
    | _ => Except.error "TypeError: unsupported operand types for *"
  | none, some b =>
    match x with
    | Json.str s => Except.ok (Json.str (pyRepeatStr s b))
    | Json.arr xs => Except.ok (Json.arr (pyRepeatList xs b))
    | _ => Except.error "TypeError: unsupported operand types for *"
  | none, none => Except.error "TypeError: unsupported operand types for *"

/-- Field lookup on a JSON object, `none` on other values: a read-only
accessor used to state properties of response bodies. -/
def jget : Json → String → Option Json
  | Json.obj fs, k => fs.lookup k
  | _, _ => none

/-- One stored session record, mirroring the dict built by the initialize
handler: keys `initialized`, `protocol_version`, `capabilities`,
`client_info`. -/
structure Session where
  initialized : Bool
  protocol_version : Json
  capabilities : Json
  client_info : Json

/-- The process-wide `sessions` dict, as an association list keyed by
session id. -/
abbrev Sessions := List (String × Session)

/-- Python `del sessions[k]` / absence after removal: drop the binding. -/
def storeErase (s : Sessions) (k : String) : Sessions :=
  s.filter (fun p => p.1 != k)

/-- Python `sessions[k] = v`: bind `k` to `v`, replacing any prior binding. -/
def storeInsert (s : Sessions) (k : String) (v : Session) : Sessions :=
  (k, v) :: storeErase s k

/-- Model of `handle_initialize(params)` from the source.  The fresh
`uuid.uuid4()` string is passed in as `session_id`.  The session record is
inserted into the store before the response object reads `.get("tools")`
etc. off the client capabilities, exactly as in the source, so a failure in
that later read leaves the inserted record behind.  The first component is
the Python return value (result, session id) or the escaping exception; the
second is the store after the call. -/
def handle_init (sessions : Sessions) (session_id : String) (params : Json) :
    Except String (Json × String) × Sessions :=
  match pyGetD params "protocolVersion" (Json.str "2024-11-05") with
  | Except.error e => (Except.error e, sessions)
  | Except.ok client_protocol_version =>
    match pyGetD params "capabilities" (Json.obj []), pyGetD params "clientInfo" (Json.obj []) with
    | Except.error e, _ => (Except.error e, sessions)
    | _, Except.error e => (Except.error e, sessions)
    | Except.ok caps, Except.ok cinfo =>
      let sessions1 := storeInsert sessions session_id
        { initialized := true
          protocol_version := client_protocol_version
          capabilities := caps
          client_info := cinfo }
      match pyGetD params "capabilities" (Json.obj []) with
      | Except.error e => (Except.error e, sessions1)
      | Except.ok client_capabilities =>
        match pyGet client_capabilities "tools", pyGet client_capabilities "prompts",
              pyGet client_capabilities "resources" with
        | Except.ok tools, Except.ok prompts, Except.ok resources =>
          (Except.ok (Json.obj [
            ("protocolVersion", client_protocol_version),
            ("capabilities", Json.obj [
              ("tools", if truthy tools then Json.obj [] else Json.null),
              ("prompts", if truthy prompts then Json.obj [] else Json.null),
              ("resources", if truthy resources then Json.obj [] else Json.null)]),
            ("serverInfo", Json.obj [
              ("name", Json.str "thunder-mcp-server"),
              ("version", Json.str "1.0.0")])], session_id), sessions1)
        | Except.error e, _, _ => (Except.error e, sessions1)
        | _, Except.error e, _ => (Except.error e, sessions1)
        | _, _, Except.error e => (Except.error e, sessions1)

/-- Model of `handle_tools_list()`: the static tool descriptor table. -/
def handle_tools_list : Json :=
  Json.obj [("tools", Json.arr [
    Json.obj [
      ("name", Json.str "add"),
      ("description", Json.str "Add two numbers together"),
      ("inputSchema", Json.obj [
        ("type", Json.str "object"),
        ("properties", Json.obj [
          ("a", Json.obj [("type", Json.str "number"),
            ("description", Json.str "First number to add")]),
          ("b", Json.obj [("type", Json.str "number"),
            ("description", Json.str "Second number to add")])]),
        ("required", Json.arr [Json.str "a", Json.str "b"])])],
    Json.obj [
      ("name", Json.str "multiply"),
      ("description", Json.str "Multiply two numbers together"),
      ("inputSchema", Json.obj [
        ("type", Json.str "object"),
        ("properties", Json.obj [
          ("x", Json.obj [("type", Json.str "number"),
            ("description", Json.str "First number to multiply")]),
          ("y", Json.obj [("type", Json.str "number"),
            ("description", Json.str "Second number to multiply")])]),
        ("required", Json.arr [Json.str "x", Json.str "y"])])]])]

/-- Model of `handle_tools_call(tool_name, arguments)`.  The arithmetic
result is computed from `.get` with default `0` first, then the message
re-reads the raw arguments without a default, as in the source; an unknown
tool raises `ValueError`. -/
def handle_tools_call (tool_name : Json) (arguments : Json) : Except String Json :=
  if jsonEqStr tool_name "add" then do
    let a0 ← pyGetD arguments "a" (Json.num 0)
    let b0 ← pyGetD arguments "b" (Json.num 0)
    let result ← pyAdd a0 b0
    let a ← pyGet arguments "a"
    let b ← pyGet arguments "b"
    Except.ok (Json.obj [("content", Json.arr [Json.obj [
      ("type", Json.str "text"),
      ("text", Json.str (pyStr a ++ " + " ++ pyStr b ++ " = " ++ pyStr result))]])])
  else if jsonEqStr tool_name "multiply" then do
    let x0 ← pyGetD arguments "x" (Json.num 0)
    let y0 ← pyGetD arguments "y" (Json.num 0)
    let result ← pyMul x0 y0
    let x ← pyGet arguments "x"
    let y ← pyGet arguments "y"
    Except.ok (Json.obj [("content", Json.arr [Json.obj [
      ("type", Json.str "text"),
      ("text", Json.str (pyStr x ++ " × " ++ pyStr y ++ " = " ++ pyStr result))]])])
  else
    Except.error ("Unknown tool: " ++ pyStr tool_name)

/-- The request data the modelled handlers consult.  `is_json` is Flask's
`request.is_json` (a content-type check); `body` is the outcome of
`request.json`: `some v` when the body parses to the JSON value `v`, `none`
when accessing `request.json` raises (unparseable body). -/
structure HttpRequest where
  httpMethod : String
  authorization : Option String
  mcp_session_id : Option String
  is_json : Bool
  body : Option Json

/-- A handler response: HTTP status, JSON body (an empty Flask string body
is modelled as `Json.str ""`), and the extra headers the handler sets. -/
structure HttpResponse where
  status : Nat
  body : Json
  headers : List (String × String)

/-- The `MCP_SERVER_URL` configuration at its default value. -/
def MCP_SERVER_URL : String := "http://localhost:3000"

/-- The protected-resource metadata URL interpolated into `WWW-Authenticate`
challenges. -/
def resource_metadata_url : String :=
  MCP_SERVER_URL ++ "/.well-known/oauth-protected-resource"

/-- The JSON-RPC error envelope `jsonify` produces in every error return of
the source: `jsonrpc`, `error.code`, `error.message`, `id`. -/
def rpcErrorBody (code : Int) (message : String) (idv : Json) : Json :=
  Json.obj [("jsonrpc", Json.str "2.0"),
    ("error", Json.obj [("code", Json.num code), ("message", Json.str message)]),
    ("id", idv)]

/-- Python `request.json`: the parsed body, or the `BadRequest` Flask raises
when the body cannot be decoded. -/
def request_json (req : HttpRequest) : Except String Json :=
  match req.body with
  | some j => Except.ok j
  | none => Except.error "BadRequest: failed to decode JSON object"

/-- Python `request.json.get("id") if request.is_json else None`, as
evaluated inside the 401 responses of `require_auth`: raises when the body
is unparseable or not a dict. -/
def id_if_json (req : HttpRequest) : Except String Json :=
  if req.is_json then
    match request_json req with
    | Except.ok j => pyGet j "id"
    | Except.error e => Except.error e
  else Except.ok Json.null

/-- Python `request.json.get("method", "unknown")` read by the logging in
the invalid-token branch of `require_auth`, guarded by `request.is_json`. -/
def method_if_json (req : HttpRequest) : Except String Json :=
  if req.is_json then
    match request_json req with
    | Except.ok j => pyGetD j "method" (Json.str "unknown")
    | Except.error e => Except.error e
  else Except.ok Json.null

/-- Model of `validate_bearer_token(token)`.  The `jwt.decode(...)` call
(base64url and JSON parsing of an external library, no verification) is
passed in as `jwtDecode`; its failure is wrapped into the
"Token decode error" reason exactly as the source's except-branch does. -/
def validate_bearer_token (jwtDecode : String → Except String Json)
    (token : String) : Except String Json :=
  if !(List.isPrefixOf ("Bearer ".data) token.data) then
    Except.error "Invalid Authorization header format"
  else
    match jwtDecode (String.mk (token.data.drop 7)) with
    | Except.ok decoded => Except.ok decoded
    | Except.error e => Except.error ("Token decode error: " ++ e)

/-- Model of the `require_auth` decorator: produce the 401 rejection when
the `Authorization` header is missing or the token does not decode,
otherwise run the wrapped handler.  The `id` (and, for the invalid-token
branch, `method`) reads off `request.json` happen inside the rejection
paths and their exceptions escape, as in the source. -/
def require_auth (jwtDecode : String → Except String Json)
    (req : HttpRequest) (sessions : Sessions)
    (f : Except String (HttpResponse × Sessions)) :
    Except String (HttpResponse × Sessions) :=
  match req.authorization with
  | none =>
    match id_if_json req with
    | Except.error e => Except.error e
    | Except.ok idv =>
      Except.ok ({ status := 401
                   body := rpcErrorBody (-32001)
                     "Unauthorized: Missing Authorization header" idv
                   headers := [("WWW-Authenticate",
                     "Bearer realm=\"mcp\", resource_metadata=\"" ++
                     resource_metadata_url ++ "\"")] }, sessions)
  | some auth_header =>
    match validate_bearer_token jwtDecode auth_header with
    | Except.error err =>
      match method_if_json req with
      | Except.error e => Except.error e
      | Except.ok _ =>
        match id_if_json req with
        | Except.error e => Except.error e
        | Except.ok idv =>
          Except.ok ({ status := 401
                       body := rpcErrorBody (-32001) ("Unauthorized: " ++ err) idv
                       headers := [("WWW-Authenticate",
                         "Bearer error=\"invalid_token\", error_description=\"" ++
                         err ++ "\", resource_metadata=\"" ++
                         resource_metadata_url ++ "\"")] }, sessions)
    | Except.ok _claims => f

/-- Python `not session_id or session_id not in sessions`: the header is
missing, empty (falsy), or not a key of the store. -/
def sidInvalid (session_id : Option String) (sessions : Sessions) : Bool :=
  match session_id with
  | none => true
  | some s => s == "" || (sessions.lookup s).isNone

/-- The body of the `try` block of `handle_mcp_request`, after the envelope
fields have been read: notification short-circuit, the initialize branch,
the session gate, and method routing.  The second component is the store
after the step; an `Except.error` models a raised exception reaching the
`except` clause with that store state. -/
def mcp_dispatch (sessions : Sessions) (fresh : String)
    (session_id : Option String) (method params request_id : Json) :
    Except String HttpResponse × Sessions :=
  if isNone request_id then
    (Except.ok { status := 200, body := Json.obj [], headers := [] }, sessions)
  else if jsonEqStr method "initialize" then
    match handle_init sessions fresh params with
    | (Except.error e, s1) => (Except.error e, s1)
    | (Except.ok (result, new_session_id), s1) =>
      (Except.ok { status := 200
                   body := Json.obj [("jsonrpc", Json.str "2.0"),
                     ("result", result), ("id", request_id)]
                   headers := [("mcp-session-id", new_session_id)] }, s1)
  else if sidInvalid session_id sessions then
    (Except.ok { status := 400
                 body := rpcErrorBody (-32000)
                   "Server error: No valid session. Call initialize first." request_id
                 headers := [] }, sessions)
  else
    let sid := session_id.getD ""
    if jsonEqStr method "tools/list" then
      (Except.ok { status := 200
                   body := Json.obj [("jsonrpc", Json.str "2.0"),
                     ("result", handle_tools_list), ("id", request_id)]
                   headers := [("mcp-session-id", sid)] }, sessions)
    else if jsonEqStr method "tools/call" then
      match pyGet params "name" with
      | Except.error e => (Except.error e, sessions)
      | Except.ok tool_name =>
        match pyGetD params "arguments" (Json.obj []) with
        | Except.error e => (Except.error e, sessions)
        | Except.ok arguments =>
          match handle_tools_call tool_name arguments with
          | Except.error e => (Except.error e, sessions)
          | Except.ok result =>
            (Except.ok { status := 200
                         body := Json.obj [("jsonrpc", Json.str "2.0"),
                           ("result", result), ("id", request_id)]
                         headers := [("mcp-session-id", sid)] }, sessions)
    else
      (Except.ok { status := 400
                   body := rpcErrorBody (-32601)
                     ("Method not found: " ++ pyStr method) request_id
                   headers := [] }, sessions)

/-- Model of the `POST /` route `handle_mcp_request`, including its
`require_auth` wrapper, the `is_json` guard, the `jsonrpc` framing check,
and the `try`/`except` that turns an exception from the dispatch into a
`-32603` response with HTTP 500 while keeping whatever store state the
failed step left behind.  An `Except.error` result models an exception
escaping the route handler to the framework (no JSON-RPC response). -/
def handle_mcp_request (jwtDecode : String → Except String Json)
    (sessions : Sessions) (fresh : String) (req : HttpRequest) :
    Except String (HttpResponse × Sessions) :=
  require_auth jwtDecode req sessions (
    if !req.is_json then
      Except.ok ({ status := 400
                   body := rpcErrorBody (-32700) "Parse error" Json.null
                   headers := [] }, sessions)
    else
      match request_json req with
      | Except.error e => Except.error e
      | Except.ok rpc_request =>
        match pyGet rpc_request "jsonrpc" with
        | Except.error e => Except.error e
        | Except.ok v =>
          if !(jsonEqStr v "2.0") then
            match pyGet rpc_request "id" with
            | Except.error e => Except.error e
            | Except.ok idv =>
              Except.ok ({ status := 400
                           body := rpcErrorBody (-32600) "Invalid Request" idv
                           headers := [] }, sessions)
          else
            match pyGet rpc_request "method", pyGetD rpc_request "params" (Json.obj []),
                  pyGet rpc_request "id" with
            | Except.ok method, Except.ok params, Except.ok request_id =>
              match mcp_dispatch sessions fresh req.mcp_session_id method params request_id with
              | (Except.ok resp, s1) => Except.ok (resp, s1)
              | (Except.error e, s1) =>
                Except.ok ({ status := 500
                             body := rpcErrorBody (-32603) ("Internal error: " ++ e) request_id
                             headers := [] }, s1)
            | Except.error e, _, _ => Except.error e
            | _, Except.error e, _ => Except.error e
            | _, _, Except.error e => Except.error e)

/-- Render the optional session-id header value the way `jsonify` renders
the Python value (`None` becomes `null`). -/
def optStr : Option String → Json
  | some s => Json.str s
  | none => Json.null

/-- Model of the `GET`/`DELETE /` route `handle_session_request`, including
its `require_auth` wrapper: `DELETE` removes an existing, truthy session id
(204) or reports 404; any other method (the route only admits `GET`)
reports status ok and echoes the header. -/
def handle_session_request (jwtDecode : String → Except String Json)
    (sessions : Sessions) (req : HttpRequest) :
    Except String (HttpResponse × Sessions) :=
  require_auth jwtDecode req sessions (
    if req.httpMethod == "DELETE" then
      match req.mcp_session_id with
      | some s =>
        if s != "" && (sessions.lookup s).isSome then
          Except.ok ({ status := 204, body := Json.str "", headers := [] },
            storeErase sessions s)
        else
          Except.ok ({ status := 404, body := Json.str "", headers := [] }, sessions)
      | none => Except.ok ({ status := 404, body := Json.str "", headers := [] }, sessions)
    else
      Except.ok ({ status := 200
                   body := Json.obj [("status", Json.str "ok"),
                     ("session_id", optStr req.mcp_session_id)]
                   headers := [] }, sessions))

/-- Read a capability sub-object out of an initialize result. -/
def advertisedCap (r : Json) (k : String) : Option Json :=
  (jget r "capabilities").bind (fun caps => jget caps k)

/-- The JSON-RPC method value a request body carries, as the dispatcher
reads it: defined only for object bodies, defaulting to `null` when the
`method` key is absent. -/
def reqMethod (req : HttpRequest) : Option Json :=
  match req.body with
  | some (Json.obj fs) => some ((fs.lookup "method").getD Json.null)
  | _ => none

/-- A value compares equal to a string literal exactly when it is that
string. -/
theorem jsonEqStr_iff (v : Json) (t : String) :
    jsonEqStr v t = true ↔ v = Json.str t := by
  cases v <;> simp [jsonEqStr]

/-- Looking a key up right after erasing it reports not-found. -/
theorem storeErase_lookup (l : Sessions) (k : String) :
    (storeErase l k).lookup k = none := by
  induction l with
  | nil => rfl
  | cons p t ih =>
    rcases p with ⟨k1, v⟩
    by_cases h : k1 = k
    · simpa [storeErase, List.filter_cons, h] using ih
    · have hne : (k == k1) = false := beq_eq_false_iff_ne.mpr (Ne.symm h)
      have h2 : (k1 != k) = true := by simp [bne, beq_eq_false_iff_ne.mpr h]
      rw [storeErase, List.filter_cons, h2]
      rw [storeErase] at ih
      simp only [List.lookup, hne, if_true]
      exact ih

/-- Looking up the key just inserted returns the inserted record. -/
theorem storeInsert_lookup (l : Sessions) (k : String) (v : Session) :
    (storeInsert l k v).lookup k = some v := by
  simp [storeInsert, List.lookup]

/-- C1: for every initialize call whose client capabilities form a mapping,
the advertised `tools`/`prompts`/`resources` sub-objects are an empty object
exactly when the client declared the key with a truthy value, and null
otherwise — in particular a key declared with a falsy value (such as the
empty object) is advertised as null, not as an empty object. -/
theorem C1_theorem (sessions : Sessions) (sid : String) (ps cs : List (String × Json))
    (hcaps : (ps.lookup "capabilities").getD (Json.obj []) = Json.obj cs) :
    ∃ r : Json, (handle_init sessions sid (Json.obj ps)).1 = Except.ok (r, sid) ∧
      advertisedCap r "tools" =
        some (if truthy ((cs.lookup "tools").getD Json.null) then Json.obj []
              else Json.null) ∧
      advertisedCap r "prompts" =
        some (if truthy ((cs.lookup "prompts").getD Json.null) then Json.obj []
              else Json.null) ∧
      advertisedCap r "resources" =
        some (if truthy ((cs.lookup "resources").getD Json.null) then Json.obj []
              else Json.null) := by
  refine ⟨Json.obj [
    ("protocolVersion", (ps.lookup "protocolVersion").getD (Json.str "2024-11-05")),
    ("capabilities", Json.obj [
      ("tools", if truthy ((cs.lookup "tools").getD Json.null) then Json.obj []
                else Json.null),
      ("prompts", if truthy ((cs.lookup "prompts").getD Json.null) then Json.obj []
                  else Json.null),
      ("resources", if truthy ((cs.lookup "resources").getD Json.null) then Json.obj []
                    else Json.null)]),
    ("serverInfo", Json.obj [("name", Json.str "thunder-mcp-server"),
      ("version", Json.str "1.0.0")])], ?_, rfl, rfl, rfl⟩
  simp [handle_init, pyGetD, pyGet, hcaps]

/-- C1 witness: a client declaring `tools` with a truthy value and nothing
else is advertised `tools = {}` and null for the other two. -/
theorem C1_witness :
    ∃ r : Json,
      (handle_init [] "s0" (Json.obj [("capabilities",
        Json.obj [("tools", Json.bool true)])])).1 = Except.ok (r, "s0") ∧
      advertisedCap r "tools" = some (if truthy (((([("tools", Json.bool true)] :
          List (String × Json))).lookup "tools").getD Json.null) then Json.obj []
        else Json.null) ∧
      advertisedCap r "prompts" = some (if truthy (((([("tools", Json.bool true)] :
          List (String × Json))).lookup "prompts").getD Json.null) then Json.obj []
        else Json.null) ∧
      advertisedCap r "resources" = some (if truthy (((([("tools", Json.bool true)] :
          List (String × Json))).lookup "resources").getD Json.null) then Json.obj []
        else Json.null) :=
  C1_theorem [] "s0" [("capabilities", Json.obj [("tools", Json.bool true)])]
    [("tools", Json.bool true)] rfl

/-- C1 counterexample: a client that declares `tools` as the empty object
(present, but falsy in Python) is advertised `tools = null`, not the empty
object the claim promises for every declared key. -/
theorem C1_counterexample :
    (match (handle_init [] "s0" (Json.obj [("capabilities",
        Json.obj [("tools", Json.obj [])])])).1 with
     | Except.ok (r, _) => advertisedCap r "tools"
     | Except.error _ => none) = some Json.null ∧
    (some Json.null ≠ some (Json.obj [])) := by
  constructor
  · rfl
  · intro h
    exact Json.noConfusion (Option.some.inj h)

/-- C6: a valid initialize call (mapping params, mapping capabilities)
echoes the client protocol version verbatim in the result, defaulting to
"2024-11-05" only when the key is absent, and stores under the freshly
generated id (assumed not previously present, as a `uuid4` value) a record
holding that protocol version and the capabilities and clientInfo exactly
as received. -/
theorem C6_theorem (sessions : Sessions) (fresh : String)
    (ps cs : List (String × Json))
    (hfresh : sessions.lookup fresh = none)
    (hcaps : (ps.lookup "capabilities").getD (Json.obj []) = Json.obj cs) :
    ∃ r : Json, (handle_init sessions fresh (Json.obj ps)).1 = Except.ok (r, fresh) ∧
      jget r "protocolVersion" =
        some ((ps.lookup "protocolVersion").getD (Json.str "2024-11-05")) ∧
      ((handle_init sessions fresh (Json.obj ps)).2).lookup fresh =
        some { initialized := true
               protocol_version := (ps.lookup "protocolVersion").getD (Json.str "2024-11-05")
               capabilities := (ps.lookup "capabilities").getD (Json.obj [])
               client_info := (ps.lookup "clientInfo").getD (Json.obj []) } := by
  refine ⟨Json.obj [
    ("protocolVersion", (ps.lookup "protocolVersion").getD (Json.str "2024-11-05")),
    ("capabilities", Json.obj [
      ("tools", if truthy ((cs.lookup "tools").getD Json.null) then Json.obj []
                else Json.null),
      ("prompts", if truthy ((cs.lookup "prompts").getD Json.null) then Json.obj []
                  else Json.null),
      ("resources", if truthy ((cs.lookup "resources").getD Json.null) then Json.obj []
                    else Json.null)]),
    ("serverInfo", Json.obj [("name", Json.str "thunder-mcp-server"),
      ("version", Json.str "1.0.0")])], ?_, rfl, ?_⟩
  · simp [handle_init, pyGetD, pyGet, hcaps]
  · simp only [handle_init, pyGetD, pyGet, hcaps]
    exact storeInsert_lookup sessions fresh _

/-- C6 witness: a concrete initialize call with an explicit protocol
version, capabilities and clientInfo. -/
theorem C6_witness :
    ∃ r : Json,
      (handle_init [] "s1" (Json.obj [
        ("protocolVersion", Json.str "9.9"),
        ("capabilities", Json.obj [("tools", Json.obj [("x", Json.num 1)])]),
        ("clientInfo", Json.obj [("name", Json.str "vscode")])])).1
        = Except.ok (r, "s1") ∧
      jget r "protocolVersion" = some (((([
        ("protocolVersion", Json.str "9.9"),
        ("capabilities", Json.obj [("tools", Json.obj [("x", Json.num 1)])]),
        ("clientInfo", Json.obj [("name", Json.str "vscode")])] :
          List (String × Json))).lookup "protocolVersion").getD (Json.str "2024-11-05")) ∧
      ((handle_init [] "s1" (Json.obj [
        ("protocolVersion", Json.str "9.9"),
        ("capabilities", Json.obj [("tools", Json.obj [("x", Json.num 1)])]),
        ("clientInfo", Json.obj [("name", Json.str "vscode")])])).2).lookup "s1" =
        some { initialized := true
               protocol_version := (((([
                 ("protocolVersion", Json.str "9.9"),
                 ("capabilities", Json.obj [("tools", Json.obj [("x", Json.num 1)])]),
                 ("clientInfo", Json.obj [("name", Json.str "vscode")])] :
                   List (String × Json))).lookup "protocolVersion").getD
                     (Json.str "2024-11-05"))
               capabilities := (((([
                 ("protocolVersion", Json.str "9.9"),
                 ("capabilities", Json.obj [("tools", Json.obj [("x", Json.num 1)])]),
                 ("clientInfo", Json.obj [("name", Json.str "vscode")])] :
                   List (String × Json))).lookup "capabilities").getD (Json.obj []))
               client_info := (((([
                 ("protocolVersion", Json.str "9.9"),
                 ("capabilities", Json.obj [("tools", Json.obj [("x", Json.num 1)])]),
                 ("clientInfo", Json.obj [("name", Json.str "vscode")])] :
                   List (String × Json))).lookup "clientInfo").getD (Json.obj [])) } :=
  C6_theorem [] "s1" [
    ("protocolVersion", Json.str "9.9"),
    ("capabilities", Json.obj [("tools", Json.obj [("x", Json.num 1)])]),
    ("clientInfo", Json.obj [("name", Json.str "vscode")])]
    [("tools", Json.obj [("x", Json.num 1)])] rfl rfl

/-- With a present `Authorization` header whose token decodes, the
`require_auth` wrapper is transparent. -/
theorem require_auth_ok (jwtDecode : String → Except String Json)
    (req : HttpRequest) (sessions : Sessions)
    (f : Except String (HttpResponse × Sessions)) (a : String) (c : Json)
    (ha : req.authorization = some a)
    (hv : validate_bearer_token jwtDecode a = Except.ok c) :
    require_auth jwtDecode req sessions f = f := by
  unfold require_auth
  rw [ha]
  simp only [hv]

/-- A decoder standing in for `jwt.decode` on a token that parses: used to
instantiate concrete runs. -/
def okDecoder : String → Except String Json :=
  fun _ => Except.ok (Json.obj [])

/-- A store holding one established session, as a successful initialize
with default parameters would create it. -/
def oneSessionStore : Sessions :=
  [("sess-1", { initialized := true
                protocol_version := Json.str "2024-11-05"
                capabilities := Json.obj []
                client_info := Json.obj [] })]

/-- An authenticated `tools/call` request for `add` with arguments
`a = 2, b = 3` against the established session. -/
def addCallReq : HttpRequest :=
  { httpMethod := "POST"
    authorization := some "Bearer tok"
    mcp_session_id := some "sess-1"
    is_json := true
    body := some (Json.obj [("jsonrpc", Json.str "2.0"), ("id", Json.num 1),
      ("method", Json.str "tools/call"),
      ("params", Json.obj [("name", Json.str "add"),
        ("arguments", Json.obj [("a", Json.num 2), ("b", Json.num 3)])])]) }

/-- The same request for `multiply` with arguments `x = 4, y = 5`. -/
def mulCallReq : HttpRequest :=
  { httpMethod := "POST"
    authorization := some "Bearer tok"
    mcp_session_id := some "sess-1"
    is_json := true
    body := some (Json.obj [("jsonrpc", Json.str "2.0"), ("id", Json.num 2),
      ("method", Json.str "tools/call"),
      ("params", Json.obj [("name", Json.str "multiply"),
        ("arguments", Json.obj [("x", Json.num 4), ("y", Json.num 5)])])]) }

/-- The text of the first content element of a run's result, when the run
produced a JSON-RPC success response. -/
def responseText (r : Except String (HttpResponse × Sessions)) : Option String :=
  match r with
  | Except.ok (resp, _) =>
    match (jget resp.body "result").bind (fun res => jget res "content") with
    | some (Json.arr (c :: _)) =>
      match jget c "text" with
      | some (Json.str t) => some t
      | _ => none
    | _ => none
  | Except.error _ => none

/-- Substring test on character lists. -/
def hasSub (hay sub : List Char) : Bool :=
  match hay with
  | [] => sub.isEmpty
  | _ :: t => List.isPrefixOf sub hay || hasSub t sub

/-- Substring test on strings. -/
def strContains (hay sub : String) : Bool :=
  hasSub hay.data sub.data

/-- C9: against a valid session, `tools/call` of `add` with `a = 2, b = 3`
responds with content text containing "2 + 3 = 5", and `tools/call` of
`multiply` with `x = 4, y = 5` responds with content text containing
"4 × 5 = 20". -/
theorem C9_theorem :
    (responseText (handle_mcp_request okDecoder oneSessionStore "f0" addCallReq)).map
      (fun t => strContains t "2 + 3 = 5") = some true ∧
    (responseText (handle_mcp_request okDecoder oneSessionStore "f0" mulCallReq)).map
      (fun t => strContains t "4 × 5 = 20") = some true := by
  constructor <;> rfl

/-- A `.get` on a value that is not a dict raises `AttributeError`,
whatever the key and default. -/
theorem pyGetD_nonobj (v : Json) (k : String) (d : Json)
    (h : ∀ fs, v ≠ Json.obj fs) :
    pyGetD v k d = Except.error "AttributeError: value has no attribute get" := by
  cases v <;> first | rfl | exact absurd rfl (h _)

/-- The no-default `.get` on a non-dict raises as well. -/
theorem pyGet_nonobj (v : Json) (k : String)
    (h : ∀ fs, v ≠ Json.obj fs) :
    pyGet v k = Except.error "AttributeError: value has no attribute get" :=
  pyGetD_nonobj v k Json.null h

/-- C7 (amended): for an authenticated POST, framing is checked before any
session logic, but keyed on the content type, not the body: a non-JSON
content type gets `-32700` Parse error with HTTP 400 whatever the body —
even a valid JSON object with a wrong `jsonrpc`, which therefore never
reaches `-32600`; a JSON content type whose body parses to an object with
`jsonrpc` ≠ "2.0" gets `-32600` Invalid Request with HTTP 400; a JSON
content type whose body is unparseable raises `BadRequest` out of the
handler, and one whose body parses to a non-object raises `AttributeError`
out of the handler — in those two cases no JSON-RPC envelope is produced.
In the two enveloped cases the store is returned unchanged and the
response does not depend on it. -/
theorem C7_theorem (jwtDecode : String → Except String Json) (sessions : Sessions)
    (fresh : String) (req : HttpRequest) (a : String) (c : Json)
    (ha : req.authorization = some a)
    (hv : validate_bearer_token jwtDecode a = Except.ok c) :
    (req.is_json = false →
      handle_mcp_request jwtDecode sessions fresh req =
        Except.ok ({ status := 400
                     body := rpcErrorBody (-32700) "Parse error" Json.null
                     headers := [] }, sessions)) ∧
    (∀ fs : List (String × Json), req.is_json = true →
      req.body = some (Json.obj fs) →
      (fs.lookup "jsonrpc").getD Json.null ≠ Json.str "2.0" →
      handle_mcp_request jwtDecode sessions fresh req =
        Except.ok ({ status := 400
                     body := rpcErrorBody (-32600) "Invalid Request"
                       ((fs.lookup "id").getD Json.null)
                     headers := [] }, sessions)) ∧
    (req.is_json = true → req.body = none →
      handle_mcp_request jwtDecode sessions fresh req =
        Except.error "BadRequest: failed to decode JSON object") ∧
    (∀ b : Json, req.is_json = true → req.body = some b →
      (∀ fs, b ≠ Json.obj fs) →
      handle_mcp_request jwtDecode sessions fresh req =
        Except.error "AttributeError: value has no attribute get") := by
  refine ⟨?_, ?_, ?_, ?_⟩
  · intro hj
    unfold handle_mcp_request
    rw [require_auth_ok jwtDecode req sessions _ a c ha hv, hj]
    rfl
  · intro fs hj hb hne
    have hfalse : jsonEqStr ((fs.lookup "jsonrpc").getD Json.null) "2.0" = false :=
      Bool.eq_false_iff.mpr (fun h => hne ((jsonEqStr_iff _ _).mp h))
    unfold handle_mcp_request
    rw [require_auth_ok jwtDecode req sessions _ a c ha hv, hj]
    simp only [request_json, hb, pyGet, pyGetD, hfalse, Bool.not_true, Bool.not_false,
      Bool.true_eq_false, if_true, if_false, ite_true, ite_false]
    rfl
  · intro hj hb
    unfold handle_mcp_request
    rw [require_auth_ok jwtDecode req sessions _ a c ha hv, hj]
    simp only [request_json, hb]
    rfl
  · intro b hj hb hnb
    have hg : pyGet b "jsonrpc" = Except.error "AttributeError: value has no attribute get" :=
      pyGet_nonobj b "jsonrpc" hnb
    unfold handle_mcp_request
    rw [require_auth_ok jwtDecode req sessions _ a c ha hv, hj]
    simp only [request_json, hb, hg]
    rfl

/-- An authenticated request with JSON content type whose body fails to
parse. -/
def unparseableReq : HttpRequest :=
  { httpMethod := "POST"
    authorization := some "Bearer tok"
    mcp_session_id := none
    is_json := true
    body := none }

/-- An authenticated request whose content type is not JSON but whose bytes
form a valid JSON object with `jsonrpc` equal to "1.0". -/
def wrongTypeJsonReq : HttpRequest :=
  { httpMethod := "POST"
    authorization := some "Bearer tok"
    mcp_session_id := none
    is_json := false
    body := some (Json.obj [("jsonrpc", Json.str "1.0"), ("id", Json.num 3)]) }

/-- C7 witness: the four clauses of the amended claim at concrete inputs —
a non-JSON content type gets `-32700`, an object body with `jsonrpc` "1.0"
gets `-32600` with its id echoed, an unparseable JSON-typed body escapes as
`BadRequest`, and a JSON-typed non-object body escapes as
`AttributeError`. -/
theorem C7_witness :
    handle_mcp_request okDecoder [] "f0"
      { httpMethod := "POST", authorization := some "Bearer tok",
        mcp_session_id := none, is_json := false, body := none } =
      Except.ok ({ status := 400
                   body := rpcErrorBody (-32700) "Parse error" Json.null
                   headers := [] }, []) ∧
    handle_mcp_request okDecoder [] "f0"
      { httpMethod := "POST", authorization := some "Bearer tok",
        mcp_session_id := none, is_json := true,
        body := some (Json.obj [("jsonrpc", Json.str "1.0"), ("id", Json.num 3)]) } =
      Except.ok ({ status := 400
                   body := rpcErrorBody (-32600) "Invalid Request"
                     ((([("jsonrpc", Json.str "1.0"), ("id", Json.num 3)] :
                       List (String × Json)).lookup "id").getD Json.null)
                   headers := [] }, []) ∧
    handle_mcp_request okDecoder [] "f0" unparseableReq =
      Except.error "BadRequest: failed to decode JSON object" ∧
    handle_mcp_request okDecoder [] "f0"
      { httpMethod := "POST", authorization := some "Bearer tok",
        mcp_session_id := none, is_json := true, body := some (Json.str "hi") } =
      Except.error "AttributeError: value has no attribute get" :=
  ⟨(C7_theorem okDecoder [] "f0"
      { httpMethod := "POST", authorization := some "Bearer tok",
        mcp_session_id := none, is_json := false, body := none }
      "Bearer tok" (Json.obj []) rfl rfl).1 rfl,
   (C7_theorem okDecoder [] "f0"
      { httpMethod := "POST", authorization := some "Bearer tok",
        mcp_session_id := none, is_json := true,
        body := some (Json.obj [("jsonrpc", Json.str "1.0"), ("id", Json.num 3)]) }
      "Bearer tok" (Json.obj []) rfl rfl).2.1
      [("jsonrpc", Json.str "1.0"), ("id", Json.num 3)] rfl rfl
      (fun h => absurd (Json.str.inj h) (by decide)),
   (C7_theorem okDecoder [] "f0" unparseableReq
      "Bearer tok" (Json.obj []) rfl rfl).2.2.1 rfl rfl,
   (C7_theorem okDecoder [] "f0"
      { httpMethod := "POST", authorization := some "Bearer tok",
        mcp_session_id := none, is_json := true, body := some (Json.str "hi") }
      "Bearer tok" (Json.obj []) rfl rfl).2.2.2 (Json.str "hi") rfl rfl
      (fun fs h => Json.noConfusion h)⟩

/-- C7 counterexample: the claim fails in both directions.  A JSON-typed
request whose body does not parse — a non-JSON body in the claim's words —
escapes as `BadRequest` instead of producing the promised `-32700`
envelope; and a request whose bytes are a valid JSON object with `jsonrpc`
"1.0" but whose content type is not JSON is answered `-32700` Parse error,
not the `-32600` the claim promises for a JSON body with a wrong `jsonrpc`
field. -/
theorem C7_counterexample :
    handle_mcp_request okDecoder [] "f0" unparseableReq =
      Except.error "BadRequest: failed to decode JSON object" ∧
    handle_mcp_request okDecoder [] "f0" wrongTypeJsonReq =
      Except.ok ({ status := 400
                   body := rpcErrorBody (-32700) "Parse error" Json.null
                   headers := [] }, []) ∧
    ((-32700 : Int) ≠ -32600) :=
  ⟨rfl, rfl, by decide⟩

/-- C4: an authenticated, well-framed request whose `id` is absent or null
is treated as a notification: the response is HTTP 200 with the empty JSON
object as body — never an error envelope — regardless of the method name,
and the session store is neither consulted (the response is the same for
every store) nor changed. -/
theorem C4_theorem (jwtDecode : String → Except String Json) (sessions : Sessions)
    (fresh : String) (req : HttpRequest) (a : String) (c : Json)
    (fs : List (String × Json))
    (ha : req.authorization = some a)
    (hv : validate_bearer_token jwtDecode a = Except.ok c)
    (hj : req.is_json = true)
    (hb : req.body = some (Json.obj fs))
    (hrpc : (fs.lookup "jsonrpc").getD Json.null = Json.str "2.0")
    (hid : (fs.lookup "id").getD Json.null = Json.null) :
    handle_mcp_request jwtDecode sessions fresh req =
      Except.ok ({ status := 200, body := Json.obj [], headers := [] }, sessions) := by
  unfold handle_mcp_request
  rw [require_auth_ok jwtDecode req sessions _ a c ha hv, hj]
  simp only [request_json, hb, pyGet, pyGetD, hrpc, hid, mcp_dispatch]
  rfl

/-- C4 witness: a notification with an unrecognized method name and no id
gets the empty 200 response. -/
theorem C4_witness :
    handle_mcp_request okDecoder [] "f0"
      { httpMethod := "POST", authorization := some "Bearer tok",
        mcp_session_id := none, is_json := true,
        body := some (Json.obj [("jsonrpc", Json.str "2.0"),
          ("method", Json.str "notifications/whatever")]) } =
      Except.ok ({ status := 200, body := Json.obj [], headers := [] }, []) :=
  C4_theorem okDecoder [] "f0"
    { httpMethod := "POST", authorization := some "Bearer tok",
      mcp_session_id := none, is_json := true,
      body := some (Json.obj [("jsonrpc", Json.str "2.0"),
        ("method", Json.str "notifications/whatever")]) }
    "Bearer tok" (Json.obj [])
    [("jsonrpc", Json.str "2.0"), ("method", Json.str "notifications/whatever")]
    rfl rfl rfl rfl rfl rfl

/-- The session header is absent or does not resolve in the store. -/
def noSessionFor (sid : Option String) (sessions : Sessions) : Prop :=
  ∀ s, sid = some s → sessions.lookup s = none

/-- C2 (amended): an authenticated, well-framed request with a non-null id
and a method other than "initialize", carrying no session header or one
that does not resolve, is answered with JSON-RPC error `-32000`, message
"Server error: No valid session. Call initialize first.", HTTP 400, for
every method value, leaving the store unchanged. -/
theorem C2_theorem (jwtDecode : String → Except String Json) (sessions : Sessions)
    (fresh : String) (req : HttpRequest) (a : String) (c : Json)
    (fs : List (String × Json)) (idv : Json)
    (ha : req.authorization = some a)
    (hv : validate_bearer_token jwtDecode a = Except.ok c)
    (hj : req.is_json = true)
    (hb : req.body = some (Json.obj fs))
    (hrpc : (fs.lookup "jsonrpc").getD Json.null = Json.str "2.0")
    (hid : (fs.lookup "id").getD Json.null = idv)
    (hnn : idv ≠ Json.null)
    (hm : (fs.lookup "method").getD Json.null ≠ Json.str "initialize")
    (hs : noSessionFor req.mcp_session_id sessions) :
    handle_mcp_request jwtDecode sessions fresh req =
      Except.ok ({ status := 400
                   body := rpcErrorBody (-32000)
                     "Server error: No valid session. Call initialize first." idv
                   headers := [] }, sessions) := by
  have hnone : isNone idv = false := by
    cases idv <;> first | exact absurd rfl hnn | rfl
  have hmeq : jsonEqStr ((fs.lookup "method").getD Json.null) "initialize" = false :=
    Bool.eq_false_iff.mpr (fun h => hm ((jsonEqStr_iff _ _).mp h))
  have hsid : sidInvalid req.mcp_session_id sessions = true := by
    cases hss : req.mcp_session_id with
    | none => rfl
    | some s => simp [sidInvalid, hs s hss]
  unfold handle_mcp_request
  rw [require_auth_ok jwtDecode req sessions _ a c ha hv, hj]
  simp only [request_json, hb, pyGet, pyGetD, hrpc, hid, mcp_dispatch, hnone, hmeq,
    hsid, Bool.not_true, Bool.false_eq_true, if_false, ite_false]
  rfl

/-- An authenticated, well-framed `tools/list` request that carries no
session header. -/
def noSessionReq : HttpRequest :=
  { httpMethod := "POST"
    authorization := some "Bearer tok"
    mcp_session_id := none
    is_json := true
    body := some (Json.obj [("jsonrpc", Json.str "2.0"), ("id", Json.num 7),
      ("method", Json.str "tools/list")]) }

/-- C2 witness: the concrete no-session `tools/list` call gets the
`-32000` / HTTP 400 response with the full "Server error: ..." message. -/
theorem C2_witness :
    handle_mcp_request okDecoder [] "f0" noSessionReq =
      Except.ok ({ status := 400
                   body := rpcErrorBody (-32000)
                     "Server error: No valid session. Call initialize first." (Json.num 7)
                   headers := [] }, []) :=
  C2_theorem okDecoder [] "f0" noSessionReq "Bearer tok" (Json.obj [])
    [("jsonrpc", Json.str "2.0"), ("id", Json.num 7), ("method", Json.str "tools/list")]
    (Json.num 7) rfl rfl rfl rfl rfl rfl
    (fun h => Json.noConfusion h)
    (fun h => absurd (Json.str.inj h) (by decide))
    (fun s h => Option.noConfusion h)

/-- C2 counterexample: the message of that response is
"Server error: No valid session. Call initialize first.", which is not the
exact message "No valid session. Call initialize first." the claim
states. -/
theorem C2_counterexample :
    (match handle_mcp_request okDecoder [] "f0" noSessionReq with
     | Except.ok (resp, _) => (jget resp.body "error").bind (fun e => jget e "message")
     | Except.error _ => none)
      = some (Json.str "Server error: No valid session. Call initialize first.") ∧
    ("Server error: No valid session. Call initialize first." : String) ≠
      "No valid session. Call initialize first." :=
  ⟨rfl, by decide⟩

/-- C3 (amended): a request to the POST endpoint with no `Authorization`
header is answered 401 with the `WWW-Authenticate` challenge naming the
protected-resource metadata URL and a `-32001` error body, provided the
`id` read the rejection performs on `request.json` does not itself raise
(it raises when the content type is JSON but the body is unparseable or
not an object); the store is untouched. -/
theorem C3_theorem (jwtDecode : String → Except String Json) (sessions : Sessions)
    (fresh : String) (req : HttpRequest) (idv : Json)
    (ha : req.authorization = none)
    (hid : id_if_json req = Except.ok idv) :
    handle_mcp_request jwtDecode sessions fresh req =
      Except.ok ({ status := 401
                   body := rpcErrorBody (-32001)
                     "Unauthorized: Missing Authorization header" idv
                   headers := [("WWW-Authenticate",
                     "Bearer realm=\"mcp\", resource_metadata=\"" ++
                     resource_metadata_url ++ "\"")] }, sessions) := by
  unfold handle_mcp_request require_auth
  rw [ha]
  simp only [hid]

/-- C3 witness: a non-JSON-typed request without credentials gets the 401
challenge with a null id. -/
theorem C3_witness :
    handle_mcp_request okDecoder [] "f0"
      { httpMethod := "POST", authorization := none, mcp_session_id := none,
        is_json := false, body := none } =
      Except.ok ({ status := 401
                   body := rpcErrorBody (-32001)
                     "Unauthorized: Missing Authorization header" Json.null
                   headers := [("WWW-Authenticate",
                     "Bearer realm=\"mcp\", resource_metadata=\"" ++
                     resource_metadata_url ++ "\"")] }, []) :=
  C3_theorem okDecoder [] "f0"
    { httpMethod := "POST", authorization := none, mcp_session_id := none,
      is_json := false, body := none } Json.null rfl rfl

/-- C3 counterexample: with no `Authorization` header, a JSON-typed body
that is valid JSON but not an object makes the rejection path itself raise
(`request.json.get("id")` on a non-dict), so the run ends in an uncaught
exception instead of the 401 response the claim promises for every body. -/
theorem C3_counterexample :
    handle_mcp_request okDecoder [] "f0"
      { httpMethod := "POST", authorization := none, mcp_session_id := none,
        is_json := true, body := some (Json.num 5) } =
      Except.error "AttributeError: value has no attribute get" := rfl

/-- A dispatch step whose method value is not "initialize" hands back the
store it was given, whether it succeeds or raises. -/
theorem mcp_dispatch_store (sessions : Sessions) (fresh : String)
    (session_id : Option String) (method params request_id : Json)
    (hm : jsonEqStr method "initialize" = false) :
    (mcp_dispatch sessions fresh session_id method params request_id).2 = sessions := by
  cases hid : isNone request_id with
  | true => simp [mcp_dispatch, hid]
  | false =>
    simp only [mcp_dispatch, hid, hm, Bool.false_eq_true, if_false, ite_false]
    split
    · rfl
    · split
      · rfl
      · split
        · split
          · rfl
          · split
            · rfl
            · split
              · rfl
              · rfl
        · rfl

/-- If the wrapped handler preserves the store, so does the `require_auth`
wrapper: every rejection path returns the store unchanged. -/
theorem require_auth_store (jwtDecode : String → Except String Json)
    (req : HttpRequest) (sessions : Sessions)
    (f : Except String (HttpResponse × Sessions))
    (hf : ∀ r s, f = Except.ok (r, s) → s = sessions)
    (resp : HttpResponse) (s2 : Sessions)
    (hrun : require_auth jwtDecode req sessions f = Except.ok (resp, s2)) :
    s2 = sessions := by
  unfold require_auth at hrun
  split at hrun
  · split at hrun
    · exact absurd hrun (by simp)
    · simp only [Except.ok.injEq, Prod.mk.injEq] at hrun
      exact hrun.2.symm
  · split at hrun
    · split at hrun
      · exact absurd hrun (by simp)
      · split at hrun
        · exact absurd hrun (by simp)
        · simp only [Except.ok.injEq, Prod.mk.injEq] at hrun
          exact hrun.2.symm
    · exact hf resp s2 hrun

/-- Reading `request.json` succeeds exactly on a parsed body. -/
theorem request_json_ok (req : HttpRequest) (j : Json)
    (h : request_json req = Except.ok j) : req.body = some j := by
  unfold request_json at h
  split at h
  · rename_i b hb
    simp only [Except.ok.injEq] at h
    rw [hb, h]
  · exact absurd h (by simp)

/-- A successful `.get` happened on a dict and returned the looked-up
value. -/
theorem pyGet_ok (v : Json) (k : String) (m : Json)
    (h : pyGet v k = Except.ok m) :
    ∃ fs, v = Json.obj fs ∧ m = (fs.lookup k).getD Json.null := by
  cases v <;> simp [pyGet, pyGetD] at h
  case obj fs => exact ⟨fs, rfl, h.symm⟩

/-- C5 (amended): (1) any POST run that produces a response and whose body
method value is not "initialize" — in particular every `tools/call`,
successful or failed, and every framing or session rejection — returns the
session store exactly as it was; (2) an initialize whose params is not a
mapping fails before touching the store and leaves it unchanged; (3) an
initialize whose params is a mapping carrying a non-mapping capabilities
value inserts the new session record and then fails, leaving exactly that
entry behind. -/
theorem C5_theorem (jwtDecode : String → Except String Json) (sessions : Sessions)
    (fresh : String) :
    (∀ req resp s2,
      handle_mcp_request jwtDecode sessions fresh req = Except.ok (resp, s2) →
      reqMethod req ≠ some (Json.str "initialize") →
      s2 = sessions) ∧
    (∀ sid params, (∀ ps, params ≠ Json.obj ps) →
      handle_init sessions sid params =
        (Except.error "AttributeError: value has no attribute get", sessions)) ∧
    (∀ sid ps, (∀ fs, (ps.lookup "capabilities").getD (Json.obj []) ≠ Json.obj fs) →
      handle_init sessions sid (Json.obj ps) =
        (Except.error "AttributeError: value has no attribute get",
         storeInsert sessions sid
           { initialized := true
             protocol_version := (ps.lookup "protocolVersion").getD (Json.str "2024-11-05")
             capabilities := (ps.lookup "capabilities").getD (Json.obj [])
             client_info := (ps.lookup "clientInfo").getD (Json.obj []) })) := by
  refine ⟨?_, ?_, ?_⟩
  · intro req resp s2 hrun hm
    unfold handle_mcp_request at hrun
    refine require_auth_store jwtDecode req sessions _ ?_ resp s2 hrun
    intro r s hEq
    split at hEq
    · simp only [Except.ok.injEq, Prod.mk.injEq] at hEq
      exact hEq.2.symm
    · split at hEq
      · exact absurd hEq (by simp)
      · rename_i rpc_request hrpc
        split at hEq
        · exact absurd hEq (by simp)
        · rename_i v hjv
          split at hEq
          · split at hEq
            · exact absurd hEq (by simp)
            · simp only [Except.ok.injEq, Prod.mk.injEq] at hEq
              exact hEq.2.symm
          · split at hEq
            · rename_i method params request_id hmeth hparams hid2
              obtain ⟨fs, hobj, hmv⟩ := pyGet_ok _ _ _ hmeth
              have hbody : req.body = some (Json.obj fs) := by
                have hb0 := request_json_ok req rpc_request hrpc
                rw [hobj] at hb0
                exact hb0
              have hrm : reqMethod req = some ((fs.lookup "method").getD Json.null) := by
                simp [reqMethod, hbody]
              have hje : jsonEqStr method "initialize" = false :=
                Bool.eq_false_iff.mpr (fun hh => hm (by
                  rw [hrm, ← hmv, (jsonEqStr_iff _ _).mp hh]))
              have hds := mcp_dispatch_store sessions fresh req.mcp_session_id
                method params request_id hje
              split at hEq
              · rename_i resp1 s1 hd
                rw [hd] at hds
                simp only [Except.ok.injEq, Prod.mk.injEq] at hEq
                exact hEq.2.symm.trans hds
              · rename_i e s1 hd
                rw [hd] at hds
                simp only [Except.ok.injEq, Prod.mk.injEq] at hEq
                exact hEq.2.symm.trans hds
            · exact absurd hEq (by simp)
            · exact absurd hEq (by simp)
            · exact absurd hEq (by simp)
  · intro sid params hne
    have hp := pyGetD_nonobj params "protocolVersion" (Json.str "2024-11-05") hne
    simp only [handle_init, hp]
  · intro sid ps hne
    have ht : pyGet ((ps.lookup "capabilities").getD (Json.obj [])) "tools" =
        Except.error "AttributeError: value has no attribute get" :=
      pyGet_nonobj _ "tools" hne
    simp only [handle_init, pyGetD, ht]

/-- An authenticated `tools/call` naming an unknown tool against the
established session. -/
def badToolReq : HttpRequest :=
  { httpMethod := "POST"
    authorization := some "Bearer tok"
    mcp_session_id := some "sess-1"
    is_json := true
    body := some (Json.obj [("jsonrpc", Json.str "2.0"), ("id", Json.num 9),
      ("method", Json.str "tools/call"),
      ("params", Json.obj [("name", Json.str "nope")])]) }

/-- C5 witness: the three parts at concrete inputs — the unknown-tool call
fails with `-32603` / HTTP 500 and the store after equals the store
before; an initialize with string params fails leaving the store
unchanged; and an initialize with a string capabilities value fails
leaving exactly the freshly inserted record. -/
theorem C5_witness :
    handle_mcp_request okDecoder oneSessionStore "f0" badToolReq =
      Except.ok ({ status := 500
                   body := rpcErrorBody (-32603)
                     "Internal error: Unknown tool: nope" (Json.num 9)
                   headers := [] }, oneSessionStore) ∧
    oneSessionStore = oneSessionStore ∧
    handle_init oneSessionStore "f1" (Json.str "oops") =
      (Except.error "AttributeError: value has no attribute get", oneSessionStore) ∧
    handle_init [] "f0" (Json.obj [("capabilities", Json.str "x")]) =
      (Except.error "AttributeError: value has no attribute get",
       storeInsert [] "f0"
         { initialized := true
           protocol_version := Json.str "2024-11-05"
           capabilities := Json.str "x"
           client_info := Json.obj [] }) :=
  ⟨rfl,
   (C5_theorem okDecoder oneSessionStore "f0").1 badToolReq
     { status := 500
       body := rpcErrorBody (-32603) "Internal error: Unknown tool: nope" (Json.num 9)
       headers := [] } oneSessionStore rfl
     (fun h => absurd (Json.str.inj (Option.some.inj h)) (by decide)),
   (C5_theorem okDecoder oneSessionStore "f0").2.1 "f1" (Json.str "oops")
     (fun ps h => Json.noConfusion h),
   (C5_theorem okDecoder [] "f0").2.2 "f0" [("capabilities", Json.str "x")]
     (fun fs h => Json.noConfusion h)⟩

/-- An authenticated initialize call whose `capabilities` value is a string
rather than a mapping. -/
def leakInitReq : HttpRequest :=
  { httpMethod := "POST"
    authorization := some "Bearer tok"
    mcp_session_id := none
    is_json := true
    body := some (Json.obj [("jsonrpc", Json.str "2.0"), ("id", Json.num 1),
      ("method", Json.str "initialize"),
      ("params", Json.obj [("capabilities", Json.str "x")])]) }

/-- C5 counterexample: this initialize call fails — the response is the
`-32603` Internal error with HTTP 500 — yet the store, empty before the
call, now holds the freshly created session record: a failed initialize
does leave a session entry behind, contradicting the claim. -/
theorem C5_counterexample :
    handle_mcp_request okDecoder [] "f0" leakInitReq =
      Except.ok ({ status := 500
                   body := rpcErrorBody (-32603)
                     "Internal error: AttributeError: value has no attribute get"
                     (Json.num 1)
                   headers := [] },
        [("f0", { initialized := true
                  protocol_version := Json.str "2024-11-05"
                  capabilities := Json.str "x"
                  client_info := Json.obj [] })]) ∧
    ([("f0", { initialized := true
               protocol_version := Json.str "2024-11-05"
               capabilities := Json.str "x"
               client_info := Json.obj [] })] : Sessions) ≠ [] :=
  ⟨rfl, fun h => List.noConfusion h⟩

/-- C8: authenticated DELETE on the session endpoint: a header naming a
stored session (session ids are uuid4 strings, hence nonempty) yields 204
and the id no longer resolves afterwards; a header naming an unknown id, or
no header at all, yields 404 with the store unchanged — so repeating the
same DELETE leaves the store fixed. -/
theorem C8_theorem (jwtDecode : String → Except String Json) (sessions : Sessions)
    (req : HttpRequest) (a : String) (c : Json)
    (ha : req.authorization = some a)
    (hv : validate_bearer_token jwtDecode a = Except.ok c)
    (hdel : req.httpMethod = "DELETE")
    (hne : req.mcp_session_id ≠ some "") :
    (∀ s sess, req.mcp_session_id = some s → sessions.lookup s = some sess →
      handle_session_request jwtDecode sessions req =
        Except.ok ({ status := 204, body := Json.str "", headers := [] },
          storeErase sessions s) ∧
      (storeErase sessions s).lookup s = none) ∧
    (∀ s, req.mcp_session_id = some s → sessions.lookup s = none →
      handle_session_request jwtDecode sessions req =
        Except.ok ({ status := 404, body := Json.str "", headers := [] }, sessions)) ∧
    (req.mcp_session_id = none →
      handle_session_request jwtDecode sessions req =
        Except.ok ({ status := 404, body := Json.str "", headers := [] }, sessions)) := by
  refine ⟨?_, ?_, ?_⟩
  · intro s sess hsid hlook
    have hs0 : s ≠ "" := fun h0 => hne (h0 ▸ hsid)
    refine ⟨?_, storeErase_lookup sessions s⟩
    have hbne : (s != "") = true := bne_iff_ne.mpr hs0
    unfold handle_session_request
    rw [require_auth_ok jwtDecode req sessions _ a c ha hv]
    simp only [hdel, hsid, hlook, Option.isSome_some, Bool.and_true, hbne]
    rfl
  · intro s hsid hlook
    unfold handle_session_request
    rw [require_auth_ok jwtDecode req sessions _ a c ha hv]
    simp only [hdel, hsid, hlook, Option.isSome_none, Bool.and_false]
    rfl
  · intro hsid
    unfold handle_session_request
    rw [require_auth_ok jwtDecode req sessions _ a c ha hv]
    simp only [hdel, hsid]
    rfl

/-- An authenticated DELETE naming the established session. -/
def delReq : HttpRequest :=
  { httpMethod := "DELETE"
    authorization := some "Bearer tok"
    mcp_session_id := some "sess-1"
    is_json := false
    body := none }

/-- C8 witness: deleting the established session returns 204 and the id no
longer resolves. -/
theorem C8_witness :
    handle_session_request okDecoder oneSessionStore delReq =
      Except.ok ({ status := 204, body := Json.str "", headers := [] },
        storeErase oneSessionStore "sess-1") ∧
    (storeErase oneSessionStore "sess-1").lookup "sess-1" = none :=
  (C8_theorem okDecoder oneSessionStore delReq "Bearer tok" (Json.obj []) rfl rfl rfl
    (fun h => absurd (Option.some.inj h) (by decide))).1 "sess-1"
    { initialized := true
      protocol_version := Json.str "2024-11-05"
      capabilities := Json.obj []
      client_info := Json.obj [] } rfl rfl

/-- C10: an authenticated GET on the session endpoint always answers
HTTP 200 with body `status = "ok"` and `session_id` echoing the request
header (null when absent), for every store: the store is neither consulted
nor changed, and the echoed id is not checked for existence. -/
theorem C10_theorem (jwtDecode : String → Except String Json) (sessions : Sessions)
    (req : HttpRequest) (a : String) (c : Json)
    (ha : req.authorization = some a)
    (hv : validate_bearer_token jwtDecode a = Except.ok c)
    (hget : req.httpMethod = "GET") :
    handle_session_request jwtDecode sessions req =
      Except.ok ({ status := 200
                   body := Json.obj [("status", Json.str "ok"),
                     ("session_id", optStr req.mcp_session_id)]
                   headers := [] }, sessions) := by
  unfold handle_session_request
  rw [require_auth_ok jwtDecode req sessions _ a c ha hv]
  simp only [hget]
  rfl

/-- C10 witness: a GET carrying a session id that does not exist in the
(empty) store still gets 200 and the id echoed back. -/
theorem C10_witness :
    handle_session_request okDecoder []
      { httpMethod := "GET", authorization := some "Bearer tok",
        mcp_session_id := some "ghost", is_json := false, body := none } =
      Except.ok ({ status := 200
                   body := Json.obj [("status", Json.str "ok"),
                     ("session_id", optStr (some "ghost"))]
                   headers := [] }, []) :=
  C10_theorem okDecoder []
    { httpMethod := "GET", authorization := some "Bearer tok",
      mcp_session_id := some "ghost", is_json := false, body := none }
    "Bearer tok" (Json.obj []) rfl rfl rfl
